import Mathlib

/-!
Shallow embedding of the numeric core of
`advanced_example_with_refutation.ipynb`: the instrumental-variable
estimator (`instrumental_variables_estimator`) and the three refutation
functions (`refute_estimate_random`, `refute_estimate_placebo`,
`refute_estimate_subset`).

Modelling choices:
* numeric values are rationals (`ℚ`); IEEE NaN and infinities, which in
  the source arise only from division by zero and from the mean of an
  empty selection (`np.mean` of an empty series) and then propagate, are
  modelled by one extra value `Val.undef`;
* a pandas dataframe is a list of named columns, `List (String × List ℚ)`;
  `df[c]` is `getCol`, `df.assign(c=v)` is `assign`, `df.sample` is row
  selection by an index list supplied by the random source;
* the ambient numpy/pandas random number generator is an explicit
  `RandSource` parameter: `randn i n` is the i-th call to
  `np.random.randn(n)`, `shuffle i l` the i-th call to
  `Series.sample(frac=1)` on values `l`, and `rowSample i n f` the index
  list chosen by the i-th call to `DataFrame.sample(frac=f)` on an
  n-row frame;
* the dataframe argument of each refutation function is mutable shared
  state in Python, so each refuter is embedded with explicit state
  passing: it returns the pair of the source's return value and the
  object bound to `df` after the body has run.
-/

/-- A scalar as produced by the source's float arithmetic: either a finite
rational or `undef`, the collapsed image of IEEE NaN and ±infinity. -/
inductive Val where
  | fin : ℚ → Val
  | undef : Val
deriving DecidableEq

/-- Addition (`+` on floats): finite on finite operands, otherwise undefined. -/
def Val.add : Val → Val → Val
  | Val.fin a, Val.fin b => Val.fin (a + b)
  | _, _ => Val.undef

/-- Subtraction (`-` on floats): finite on finite operands, otherwise undefined. -/
def Val.sub : Val → Val → Val
  | Val.fin a, Val.fin b => Val.fin (a - b)
  | _, _ => Val.undef

/-- Division (`/` on floats): division by zero gives `undef` (IEEE inf or
NaN), and `undef` propagates. -/
def Val.div : Val → Val → Val
  | Val.fin a, Val.fin b => if b = 0 then Val.undef else Val.fin (a / b)
  | _, _ => Val.undef

/-- `np.mean` of a list of values: NaN (`undef`) on the empty list,
otherwise the sum divided by the length. -/
def valMean (l : List ℚ) : Val :=
  if l = [] then Val.undef else Val.fin (l.sum / l.length)

/-- A dataframe: ordered named numeric columns. -/
abbrev DataFrame := List (String × List ℚ)

/-- `df[name]`: the first column called `name` (the empty column when absent). -/
def getCol : DataFrame → String → List ℚ
  | [], _ => []
  | p :: ps, name => if p.1 = name then p.2 else getCol ps name

/-- `name in df.columns`. -/
def hasCol (df : DataFrame) (name : String) : Bool :=
  df.any (fun p => p.1 = name)

/-- `df.shape[0]`: the common length of the columns, read off the first one. -/
def numRows (df : DataFrame) : ℕ :=
  match df with
  | [] => 0
  | p :: _ => p.2.length

/-- The dataframe invariant: every column has the common row count. -/
def WFdf (df : DataFrame) : Prop :=
  ∀ p ∈ df, p.2.length = numRows df

instance (df : DataFrame) : Decidable (WFdf df) :=
  List.decidableBAll _ df

/-- `df.assign(name=vals)`: a NEW dataframe in which column `name` holds
`vals` — replaced in place when present, appended at the end otherwise.
The receiver is not modified. -/
def assign (df : DataFrame) (name : String) (vals : List ℚ) : DataFrame :=
  if hasCol df name then
    df.map (fun p => if p.1 = name then (p.1, vals) else p)
  else
    df ++ [(name, vals)]

/-- Row selection `df.iloc[idx]` (as produced by `df.sample`): every column
restricted to the index list `idx`, in that order. -/
def sampleRows (df : DataFrame) (idx : List ℕ) : DataFrame :=
  df.map (fun p => (p.1, idx.map (fun i => p.2.getD i 0)))

/-- `df["y"][mask == b]`: the values of `vals` at the positions where the
aligned column `mask` equals `b`. -/
def maskedVals (vals mask : List ℚ) (b : ℚ) : List ℚ :=
  ((vals.zip mask).filter (fun p => p.2 == b)).map Prod.fst

/-- `np.dot` of two aligned columns. -/
def dot (a b : List ℚ) : ℚ :=
  ((a.zip b).map (fun p => p.1 * p.2)).sum

/-- The `CausalEstimate` namedtuple: an immutable record holding the scalar
estimate. -/
structure CausalEstimate where
  value : Val
deriving DecidableEq

/-- Source default for the estimator's `treatment_name` parameter. -/
def treatment_name_default : String := "v"

/-- `instrumental_variables_estimator(df, treatment_name)`: reads the
instrument from column `"Z0"`, dispatches on its number of distinct
values (`len(np.unique(instrument)) <= 2`), and computes the Wald
estimator in the binary case, the Pearl ratio estimator otherwise. -/
def instrumental_variables_estimator (df : DataFrame) (treatment_name : String) :
    CausalEstimate :=
  let instrument := getCol df "Z0"
  let num_unique_values := instrument.dedup.length
  let instrument_is_binary := num_unique_values ≤ 2
  if instrument_is_binary then
    let y1_z := valMean (maskedVals (getCol df "y") instrument 1)
    let y0_z := valMean (maskedVals (getCol df "y") instrument 0)
    let x1_z := valMean (maskedVals (getCol df treatment_name) instrument 1)
    let x0_z := valMean (maskedVals (getCol df treatment_name) instrument 0)
    let num := Val.sub y1_z y0_z
    let deno := Val.sub x1_z x0_z
    ⟨Val.div num deno⟩
  else
    let num_yz := dot (getCol df "y") instrument
    let deno_xz := dot (getCol df treatment_name) instrument
    ⟨Val.div (Val.fin num_yz) (Val.fin deno_xz)⟩

/-- The ambient random stream, made explicit.  `randn i n` is the value of
the i-th `np.random.randn(n)` call, `shuffle i l` the values returned by
the i-th `Series.sample(frac=1)` on values `l`, and `rowSample i n f` the
row indices chosen by the i-th `DataFrame.sample(frac=f)` on `n` rows. -/
structure RandSource where
  randn : ℕ → ℕ → List ℚ
  shuffle : ℕ → List ℚ → List ℚ
  rowSample : ℕ → ℕ → ℚ → List ℕ

/-- `refute_estimate_random(df, causal_estimate)`: assign a fresh noise
column `w_random` and re-run the estimator (with its default treatment
name).  The second component is the object bound to `df` after the body:
`assign` returns a copy, so it is the unchanged input. -/
def refute_estimate_random (rnd : RandSource) (df : DataFrame)
    (causal_estimate : CausalEstimate) : Val × DataFrame :=
  let num_rows := numRows df
  let new_data := assign df "w_random" (rnd.randn 0 num_rows)
  let new_effect := instrumental_variables_estimator new_data "v"
  (new_effect.value, df)

/-- Source default for `placebo_type` — note the misspelling `"permte"`. -/
def placebo_type_default : String := "permte"

/-- Source default for `sims`. -/
def sims_default : ℕ := 100

/-- `refute_estimate_placebo(df, estimate, placebo_type, sims)`: in each of
`sims` rounds, build a placebo treatment — a shuffle of column `"v"` when
`placebo_type == "permute"`, fresh noise for any other string — assign it
as column `placebo`, re-run the estimator on it, and return the
accumulated sum divided by `sims`.  Second component: `df` after the body
(unchanged, `assign` copies). -/
def refute_estimate_placebo (rnd : RandSource) (df : DataFrame)
    (estimate : CausalEstimate) (placebo_type : String) (sims : ℕ) :
    Val × DataFrame :=
  let num_rows := numRows df
  let refute := (List.range sims).foldl (fun acc i =>
    let new_treatment :=
      if placebo_type = "permute" then rnd.shuffle i (getCol df "v")
      else rnd.randn i num_rows
    let new_data := assign df "placebo" new_treatment
    let new_estimate := instrumental_variables_estimator new_data "placebo"
    Val.add acc new_estimate.value) (Val.fin 0)
  (Val.div refute (Val.fin (sims : ℚ)), df)

/-- Source default for `subset_fraction`. -/
def subset_fraction_default : ℚ := 8 / 10

/-- `refute_estimate_subset(df, causal_estimate, subset_fraction)`: sample
rows without replacement at the given fraction and re-run the estimator.
Second component: `df` after the body (unchanged, `sample` copies). -/
def refute_estimate_subset (rnd : RandSource) (df : DataFrame)
    (causal_estimate : CausalEstimate) (subset_fraction : ℚ) :
    Val × DataFrame :=
  let new_data := sampleRows df (rnd.rowSample 0 (numRows df) subset_fraction)
  let new_effect := instrumental_variables_estimator new_data "v"
  (new_effect.value, df)

/-! ### Helper lemmas -/

lemma Val.div_fin_zero (v : Val) : Val.div v (Val.fin 0) = Val.undef := by
  cases v <;> simp [Val.div]

lemma getCol_map_replace (df : DataFrame) (n : String) (v : List ℚ) (c : String)
    (hcn : c ≠ n) :
    getCol (df.map (fun p => if p.1 = n then (p.1, v) else p)) c = getCol df c := by
  induction df with
  | nil => rfl
  | cons p ps ih =>
    by_cases hp : p.1 = n
    · have hpc : p.1 ≠ c := fun e => hcn (e ▸ hp ▸ rfl)
      simp [getCol, hp, hpc, Ne.symm hcn, ih]
    · by_cases hpc : p.1 = c <;> simp [getCol, hp, hpc, hcn, ih]

lemma getCol_map_replace_self (df : DataFrame) (n : String) (v : List ℚ)
    (h : hasCol df n = true) :
    getCol (df.map (fun p => if p.1 = n then (p.1, v) else p)) n = v := by
  induction df with
  | nil => simp [hasCol] at h
  | cons p ps ih =>
    by_cases hp : p.1 = n
    · simp [getCol, hp]
    · have htail : hasCol ps n = true := by
        simpa [hasCol, hp] using h
      simp [getCol, hp, ih htail]

lemma getCol_eq_nil_of_not_hasCol (df : DataFrame) (c : String)
    (h : hasCol df c = false) : getCol df c = [] := by
  induction df with
  | nil => rfl
  | cons p ps ih =>
    simp only [hasCol, List.any_cons, Bool.or_eq_false_iff] at h
    have hp : p.1 ≠ c := by simpa using h.1
    simpa [getCol, hp] using ih h.2

lemma getCol_append_single (df : DataFrame) (n : String) (v : List ℚ) (c : String)
    (h : hasCol df n = false) :
    getCol (df ++ [(n, v)]) c = if c = n then v else getCol df c := by
  induction df with
  | nil =>
    by_cases hc : c = n
    · subst hc
      simp [getCol]
    · simp [getCol, hc, Ne.symm hc]
  | cons p ps ih =>
    simp only [hasCol, List.any_cons, Bool.or_eq_false_iff] at h
    have hp : p.1 ≠ n := by simpa using h.1
    have ihh := ih (by simpa [hasCol] using h.2)
    by_cases hpc : p.1 = c
    · have hc : c ≠ n := fun e => hp (hpc.trans e)
      simp [getCol, hpc, hc]
    · simp [getCol, hpc, ihh]

/-- `assign` writes exactly the named column and leaves every other column
of the result as it was in the input. -/
lemma getCol_assign (df : DataFrame) (n : String) (v : List ℚ) (c : String) :
    getCol (assign df n v) c = if c = n then v else getCol df c := by
  unfold assign
  by_cases hany : hasCol df n = true
  · rw [if_pos hany]
    by_cases hc : c = n
    · subst hc
      rw [getCol_map_replace_self df c v hany, if_pos rfl]
    · rw [getCol_map_replace df n v c hc, if_neg hc]
  · rw [if_neg hany]
    exact getCol_append_single df n v c (Bool.eq_false_iff.mpr hany)

/-- The estimator reads the dataframe only through the columns `"y"`,
`treatment_name` and `"Z0"`. -/
lemma estimator_congr (df₁ df₂ : DataFrame) (t : String)
    (hy : getCol df₁ "y" = getCol df₂ "y")
    (hx : getCol df₁ t = getCol df₂ t)
    (hz : getCol df₁ "Z0" = getCol df₂ "Z0") :
    instrumental_variables_estimator df₁ t = instrumental_variables_estimator df₂ t := by
  simp only [instrumental_variables_estimator]
  rw [hy, hx, hz]

lemma range_map_getD (a : List ℚ) :
    (List.range a.length).map (fun i => a.getD i 0) = a := by
  apply List.ext_getElem
  · simp
  · intro i h1 h2
    simp only [List.getElem_map, List.getElem_range]
    exact List.getD_eq_getElem a 0 h2

lemma zip_eq_range_map (a b : List ℚ) (h : a.length = b.length) :
    a.zip b = (List.range b.length).map (fun i => (a.getD i 0, b.getD i 0)) := by
  apply List.ext_getElem
  · simp [h]
  · intro i h1 h2
    have hib : i < b.length := by simpa using h2
    have hia : i < a.length := h ▸ hib
    simp only [List.getElem_zip, List.getElem_map, List.getElem_range]
    rw [List.getD_eq_getElem a 0 hia, List.getD_eq_getElem b 0 hib]

lemma valMean_perm {l₁ l₂ : List ℚ} (h : l₁.Perm l₂) : valMean l₁ = valMean l₂ := by
  by_cases h1 : l₁ = []
  · subst h1
    have h2 : l₂ = [] := h.symm.eq_nil
    rw [h2]
  · have h2 : l₂ ≠ [] := fun e => h1 ((e ▸ h).eq_nil)
    simp [valMean, h1, h2, h.sum_eq, h.length_eq]

lemma maskedVals_perm_of_zip {y₁ z₁ y₂ z₂ : List ℚ} (b : ℚ)
    (h : (y₁.zip z₁).Perm (y₂.zip z₂)) :
    (maskedVals y₁ z₁ b).Perm (maskedVals y₂ z₂ b) :=
  (h.filter _).map _

lemma dot_eq_of_zip_perm {y₁ z₁ y₂ z₂ : List ℚ}
    (h : (y₁.zip z₁).Perm (y₂.zip z₂)) : dot y₁ z₁ = dot y₂ z₂ :=
  (h.map _).sum_eq

lemma getCol_sampleRows_of_hasCol (df : DataFrame) (idx : List ℕ) (c : String)
    (h : hasCol df c = true) :
    getCol (sampleRows df idx) c = idx.map (fun i => (getCol df c).getD i 0) := by
  induction df with
  | nil => simp [hasCol] at h
  | cons p ps ih =>
    by_cases hp : p.1 = c
    · simp [sampleRows, getCol, hp]
    · have htail : hasCol ps c = true := by simpa [hasCol, hp] using h
      simpa [sampleRows, getCol, hp] using ih htail

lemma hasCol_sampleRows (df : DataFrame) (idx : List ℕ) (c : String) :
    hasCol (sampleRows df idx) c = hasCol df c := by
  simp only [hasCol, sampleRows, List.any_map]
  rfl

lemma getCol_sampleRows_of_not_hasCol (df : DataFrame) (idx : List ℕ) (c : String)
    (h : hasCol df c = false) : getCol (sampleRows df idx) c = [] := by
  apply getCol_eq_nil_of_not_hasCol
  rw [hasCol_sampleRows]
  exact h

lemma length_getCol_of_hasCol (df : DataFrame) (c : String) (m : ℕ)
    (hwf : ∀ p ∈ df, p.2.length = m) (h : hasCol df c = true) :
    (getCol df c).length = m := by
  induction df with
  | nil => simp [hasCol] at h
  | cons p ps ih =>
    by_cases hp : p.1 = c
    · have := hwf p (List.mem_cons_self p ps)
      simpa [getCol, hp] using this
    · have htail : hasCol ps c = true := by simpa [hasCol, hp] using h
      have hwf2 : ∀ q ∈ ps, q.2.length = m := fun q hq => hwf q (List.mem_cons_of_mem p hq)
      simpa [getCol, hp] using ih hwf2 htail

/-- Selecting the rows of a dataframe along a permutation of `0..n-1`
permutes every column. -/
lemma getCol_sampleRows_perm (df : DataFrame) (idx : List ℕ) (n : ℕ) (c : String)
    (hwf : ∀ p ∈ df, p.2.length = n) (hidx : idx.Perm (List.range n)) :
    (getCol (sampleRows df idx) c).Perm (getCol df c) := by
  by_cases h : hasCol df c = true
  · rw [getCol_sampleRows_of_hasCol df idx c h]
    have hlen : (getCol df c).length = n := length_getCol_of_hasCol df c n hwf h
    have step1 : (idx.map (fun i => (getCol df c).getD i 0)).Perm
        ((List.range n).map (fun i => (getCol df c).getD i 0)) := hidx.map _
    have step2 : (List.range n).map (fun i => (getCol df c).getD i 0) = getCol df c := by
      rw [← hlen, range_map_getD]
    conv_rhs => rw [← step2]
    exact step1
  · have h1 := getCol_sampleRows_of_not_hasCol df idx c (Bool.eq_false_iff.mpr h)
    have h2 := getCol_eq_nil_of_not_hasCol df c (Bool.eq_false_iff.mpr h)
    rw [h1, h2]

/-- Selecting the rows of a dataframe along a permutation of `0..n-1`
permutes any two columns jointly. -/
lemma zip_sampleRows_perm (df : DataFrame) (idx : List ℕ) (n : ℕ) (a b : String)
    (hwf : ∀ p ∈ df, p.2.length = n) (hidx : idx.Perm (List.range n)) :
    ((getCol (sampleRows df idx) a).zip (getCol (sampleRows df idx) b)).Perm
      ((getCol df a).zip (getCol df b)) := by
  by_cases ha : hasCol df a = true
  · by_cases hb : hasCol df b = true
    · rw [getCol_sampleRows_of_hasCol df idx a ha, getCol_sampleRows_of_hasCol df idx b hb,
        List.zip_map']
      have hla : (getCol df a).length = n := length_getCol_of_hasCol df a n hwf ha
      have hlb : (getCol df b).length = n := length_getCol_of_hasCol df b n hwf hb
      have step1 : (idx.map (fun i => ((getCol df a).getD i 0, (getCol df b).getD i 0))).Perm
          ((List.range n).map (fun i => ((getCol df a).getD i 0, (getCol df b).getD i 0))) :=
        hidx.map _
      have step2 : (List.range n).map
          (fun i => ((getCol df a).getD i 0, (getCol df b).getD i 0)) =
          (getCol df a).zip (getCol df b) := by
        have h3 := zip_eq_range_map (getCol df a) (getCol df b) (hla.trans hlb.symm)
        rw [hlb] at h3
        exact h3.symm
      conv_rhs => rw [← step2]
      exact step1
    · rw [getCol_sampleRows_of_not_hasCol df idx b (Bool.eq_false_iff.mpr hb),
        getCol_eq_nil_of_not_hasCol df b (Bool.eq_false_iff.mpr hb)]
      simp
  · rw [getCol_sampleRows_of_not_hasCol df idx a (Bool.eq_false_iff.mpr ha),
      getCol_eq_nil_of_not_hasCol df a (Bool.eq_false_iff.mpr ha)]
    simp

/-- The estimator is invariant under a permutation of the dataframe's rows. -/
lemma estimator_sampleRows_perm (df : DataFrame) (idx : List ℕ) (t : String)
    (hwf : WFdf df) (hidx : idx.Perm (List.range (numRows df))) :
    instrumental_variables_estimator (sampleRows df idx) t =
      instrumental_variables_estimator df t := by
  have hz := getCol_sampleRows_perm df idx (numRows df) "Z0" hwf hidx
  have hyz := zip_sampleRows_perm df idx (numRows df) "y" "Z0" hwf hidx
  have hxz := zip_sampleRows_perm df idx (numRows df) t "Z0" hwf hidx
  have hcond : (getCol (sampleRows df idx) "Z0").dedup.length =
      (getCol df "Z0").dedup.length := hz.dedup.length_eq
  simp only [instrumental_variables_estimator]
  rw [hcond]
  by_cases hb : (getCol df "Z0").dedup.length ≤ 2
  · rw [if_pos hb, if_pos hb]
    rw [valMean_perm (maskedVals_perm_of_zip 1 hyz),
      valMean_perm (maskedVals_perm_of_zip 0 hyz),
      valMean_perm (maskedVals_perm_of_zip 1 hxz),
      valMean_perm (maskedVals_perm_of_zip 0 hxz)]
  · rw [if_neg hb, if_neg hb]
    rw [dot_eq_of_zip_perm hyz, dot_eq_of_zip_perm hxz]

/-- Spec-side formulation of "mean of `vals` where `mask` = b": the mean of
the values of `vals` at exactly the row positions where `mask` holds `b`. -/
def meanWhereSpec (vals mask : List ℚ) (b : ℚ) : Val :=
  valMean (((List.range mask.length).filter (fun i => mask.getD i 0 == b)).map
    (fun i => vals.getD i 0))

lemma maskedVals_eq_spec (vals mask : List ℚ) (b : ℚ) (h : vals.length = mask.length) :
    valMean (maskedVals vals mask b) = meanWhereSpec vals mask b := by
  unfold maskedVals meanWhereSpec
  congr 1
  rw [zip_eq_range_map vals mask h, List.filter_map, List.map_map]
  rfl

lemma maskedVals_map_left (f : ℚ → ℚ) (x z : List ℚ) (b : ℚ) :
    maskedVals (x.map f) z b = (maskedVals x z b).map f := by
  unfold maskedVals
  have hp : ∀ l : List (ℚ × ℚ),
      l.filter ((fun p => p.2 == b) ∘ Prod.map f id) = l.filter (fun p => p.2 == b) := by
    intro l
    apply List.filter_congr
    intro p _
    simp [Prod.map]
  rw [List.zip_map_left, List.filter_map, hp, List.map_map, List.map_map]
  apply List.map_congr_left
  intro p _
  simp [Prod.map]

lemma sum_map_mul (a : ℚ) (l : List ℚ) : (l.map (fun x => a * x)).sum = a * l.sum := by
  induction l with
  | nil => simp
  | cons x xs ih => simp [ih, mul_add]

lemma estimator_value_binary (df : DataFrame) (t : String)
    (hbin : (getCol df "Z0").dedup.length ≤ 2) :
    (instrumental_variables_estimator df t).value =
      Val.div
        (Val.sub (valMean (maskedVals (getCol df "y") (getCol df "Z0") 1))
          (valMean (maskedVals (getCol df "y") (getCol df "Z0") 0)))
        (Val.sub (valMean (maskedVals (getCol df t) (getCol df "Z0") 1))
          (valMean (maskedVals (getCol df t) (getCol df "Z0") 0))) := by
  simp only [instrumental_variables_estimator]
  rw [if_pos hbin]

lemma estimator_value_nonbinary (df : DataFrame) (t : String)
    (hbin : ¬(getCol df "Z0").dedup.length ≤ 2) :
    (instrumental_variables_estimator df t).value =
      Val.div (Val.fin (dot (getCol df "y") (getCol df "Z0")))
        (Val.fin (dot (getCol df t) (getCol df "Z0"))) := by
  simp only [instrumental_variables_estimator]
  rw [if_neg hbin]

/-- When the outcome is the treatment scaled by `β` pointwise, the Wald
ratio collapses to `β` as soon as both instrument groups are inhabited and
their treatment means differ. -/
lemma wald_of_scaled (m1 m0 : List ℚ) (β : ℚ) (h1 : m1 ≠ []) (h0 : m0 ≠ [])
    (hvar : valMean m1 ≠ valMean m0) :
    Val.div
      (Val.sub (valMean (m1.map (fun v => β * v))) (valMean (m0.map (fun v => β * v))))
      (Val.sub (valMean m1) (valMean m0)) = Val.fin β := by
  have e1 : valMean m1 = Val.fin (m1.sum / m1.length) := by simp [valMean, h1]
  have e0 : valMean m0 = Val.fin (m0.sum / m0.length) := by simp [valMean, h0]
  have hne : m1.sum / m1.length ≠ m0.sum / m0.length := by
    intro e
    exact hvar (by rw [e1, e0, e])
  have hnil1 : m1.map (fun v => β * v) ≠ [] := by simpa using h1
  have hnil0 : m0.map (fun v => β * v) ≠ [] := by simpa using h0
  have em1 : valMean (m1.map (fun v => β * v)) = Val.fin (β * (m1.sum / m1.length)) := by
    simp [valMean, hnil1, sum_map_mul, mul_div_assoc]
  have em0 : valMean (m0.map (fun v => β * v)) = Val.fin (β * (m0.sum / m0.length)) := by
    simp [valMean, hnil0, sum_map_mul, mul_div_assoc]
  rw [em1, em0, e1, e0]
  have hsub : m1.sum / ↑m1.length - m0.sum / ↑m0.length ≠ 0 := sub_ne_zero.mpr hne
  simp only [Val.sub, Val.div, if_neg hsub]
  rw [← mul_sub, mul_div_assoc, div_self hsub, mul_one]

/-! ### Claims -/

/-- C1: for every dataset, the estimator dispatches on the number of
distinct values of the instrument column `"Z0"`: with at most two distinct
values it returns the Wald estimator — the ratio of (mean outcome where
instrument=1 minus mean outcome where instrument=0) to (mean treatment
where instrument=1 minus mean treatment where instrument=0) — and
otherwise the Pearl ratio estimator, the dot product of outcome and
instrument divided by the dot product of treatment and instrument, wrapped
in the immutable scalar record `CausalEstimate`.  The means are stated
through the spec-side `meanWhereSpec`; the length hypotheses express the
data-model invariant that the columns are index-aligned. -/
theorem estimator_dispatch_wald_pearl (df : DataFrame) (t : String)
    (hy : (getCol df "y").length = (getCol df "Z0").length)
    (hx : (getCol df t).length = (getCol df "Z0").length) :
    instrumental_variables_estimator df t =
      ⟨if (getCol df "Z0").dedup.length ≤ 2 then
        Val.div
          (Val.sub (meanWhereSpec (getCol df "y") (getCol df "Z0") 1)
            (meanWhereSpec (getCol df "y") (getCol df "Z0") 0))
          (Val.sub (meanWhereSpec (getCol df t) (getCol df "Z0") 1)
            (meanWhereSpec (getCol df t) (getCol df "Z0") 0))
      else
        Val.div (Val.fin (dot (getCol df "y") (getCol df "Z0")))
          (Val.fin (dot (getCol df t) (getCol df "Z0")))⟩ := by
  by_cases hb : (getCol df "Z0").dedup.length ≤ 2
  · have hv := estimator_value_binary df t hb
    rw [maskedVals_eq_spec _ _ 1 hy, maskedVals_eq_spec _ _ 0 hy,
      maskedVals_eq_spec _ _ 1 hx, maskedVals_eq_spec _ _ 0 hx] at hv
    rw [if_pos hb, ← hv]
  · have hv := estimator_value_nonbinary df t hb
    rw [if_neg hb, ← hv]

/-- C1 witness: a concrete binary-instrument dataset, with both length
hypotheses discharged and the dispatch equation evaluated. -/
theorem estimator_dispatch_wald_pearl_witness :
    (getCol [("v", [(1 : ℚ), 2]), ("y", [3, 5]), ("Z0", [0, 1])] "y").length =
      (getCol [("v", [(1 : ℚ), 2]), ("y", [3, 5]), ("Z0", [0, 1])] "Z0").length ∧
    (getCol [("v", [(1 : ℚ), 2]), ("y", [3, 5]), ("Z0", [0, 1])] "v").length =
      (getCol [("v", [(1 : ℚ), 2]), ("y", [3, 5]), ("Z0", [0, 1])] "Z0").length ∧
    instrumental_variables_estimator
        [("v", [(1 : ℚ), 2]), ("y", [3, 5]), ("Z0", [0, 1])] "v" =
      ⟨if (getCol [("v", [(1 : ℚ), 2]), ("y", [3, 5]), ("Z0", [0, 1])] "Z0").dedup.length ≤ 2
        then
        Val.div
          (Val.sub
            (meanWhereSpec (getCol [("v", [(1 : ℚ), 2]), ("y", [3, 5]), ("Z0", [0, 1])] "y")
              (getCol [("v", [(1 : ℚ), 2]), ("y", [3, 5]), ("Z0", [0, 1])] "Z0") 1)
            (meanWhereSpec (getCol [("v", [(1 : ℚ), 2]), ("y", [3, 5]), ("Z0", [0, 1])] "y")
              (getCol [("v", [(1 : ℚ), 2]), ("y", [3, 5]), ("Z0", [0, 1])] "Z0") 0))
          (Val.sub
            (meanWhereSpec (getCol [("v", [(1 : ℚ), 2]), ("y", [3, 5]), ("Z0", [0, 1])] "v")
              (getCol [("v", [(1 : ℚ), 2]), ("y", [3, 5]), ("Z0", [0, 1])] "Z0") 1)
            (meanWhereSpec (getCol [("v", [(1 : ℚ), 2]), ("y", [3, 5]), ("Z0", [0, 1])] "v")
              (getCol [("v", [(1 : ℚ), 2]), ("y", [3, 5]), ("Z0", [0, 1])] "Z0") 0))
      else
        Val.div
          (Val.fin (dot (getCol [("v", [(1 : ℚ), 2]), ("y", [3, 5]), ("Z0", [0, 1])] "y")
            (getCol [("v", [(1 : ℚ), 2]), ("y", [3, 5]), ("Z0", [0, 1])] "Z0")))
          (Val.fin (dot (getCol [("v", [(1 : ℚ), 2]), ("y", [3, 5]), ("Z0", [0, 1])] "v")
            (getCol [("v", [(1 : ℚ), 2]), ("y", [3, 5]), ("Z0", [0, 1])] "Z0")))⟩ :=
  ⟨by decide, by decide,
    estimator_dispatch_wald_pearl [("v", [(1 : ℚ), 2]), ("y", [3, 5]), ("Z0", [0, 1])] "v"
      (by decide) (by decide)⟩

/-- C2: on any dataset generated from a noiseless linear model with
treatment effect `β` (outcome column = `β` times the treatment column,
pointwise), whose instrument is binary and has both instrument groups
inhabited with differing mean treatment, the estimator's Wald computation
returns exactly `β` (exact rational arithmetic subsumes the claim's
floating-point tolerance). -/
theorem wald_recovers_beta (df : DataFrame) (t : String) (β : ℚ)
    (hlin : getCol df "y" = (getCol df t).map (fun v => β * v))
    (hbin : (getCol df "Z0").dedup.length ≤ 2)
    (h1 : maskedVals (getCol df t) (getCol df "Z0") 1 ≠ [])
    (h0 : maskedVals (getCol df t) (getCol df "Z0") 0 ≠ [])
    (hvar : valMean (maskedVals (getCol df t) (getCol df "Z0") 1) ≠
      valMean (maskedVals (getCol df t) (getCol df "Z0") 0)) :
    (instrumental_variables_estimator df t).value = Val.fin β := by
  rw [estimator_value_binary df t hbin, hlin, maskedVals_map_left, maskedVals_map_left]
  exact wald_of_scaled _ _ β h1 h0 hvar

/-- C2 witness: treatment `[1, 3]`, outcome `2 * treatment`, binary
instrument `[0, 1]`; the Wald computation returns `2`. -/
theorem wald_recovers_beta_witness :
    getCol [("v", [(1 : ℚ), 3]), ("y", [2, 6]), ("Z0", [0, 1])] "y" =
      (getCol [("v", [(1 : ℚ), 3]), ("y", [2, 6]), ("Z0", [0, 1])] "v").map
        (fun v => 2 * v) ∧
    (instrumental_variables_estimator
      [("v", [(1 : ℚ), 3]), ("y", [2, 6]), ("Z0", [0, 1])] "v").value = Val.fin 2 :=
  ⟨by norm_num +decide [getCol],
    wald_recovers_beta [("v", [(1 : ℚ), 3]), ("y", [2, 6]), ("Z0", [0, 1])] "v" 2
      (by norm_num +decide [getCol]) (by decide) (by decide) (by decide)
      (by norm_num +decide [valMean, maskedVals, getCol])⟩

/-- C3: when the instrument induces no variation in treatment — the Wald
denominator (difference of group mean treatments) or the Pearl dot-product
denominator is zero — the estimator raises no error and returns a record
whose value is the undefined/infinite scalar `Val.undef`. -/
theorem zero_denominator_gives_undef (df : DataFrame) (t : String) :
    ((getCol df "Z0").dedup.length ≤ 2 →
      Val.sub (valMean (maskedVals (getCol df t) (getCol df "Z0") 1))
        (valMean (maskedVals (getCol df t) (getCol df "Z0") 0)) = Val.fin 0 →
      (instrumental_variables_estimator df t).value = Val.undef) ∧
    (¬(getCol df "Z0").dedup.length ≤ 2 →
      dot (getCol df t) (getCol df "Z0") = 0 →
      (instrumental_variables_estimator df t).value = Val.undef) := by
  constructor
  · intro hbin hd
    rw [estimator_value_binary df t hbin, hd, Val.div_fin_zero]
  · intro hbin hd
    rw [estimator_value_nonbinary df t hbin, hd, Val.div_fin_zero]

/-- C3 witness: constant treatment `[5, 5]` under a binary instrument; the
Wald denominator is zero and the returned value is `Val.undef`. -/
theorem zero_denominator_gives_undef_witness :
    (instrumental_variables_estimator
      [("v", [(5 : ℚ), 5]), ("y", [1, 2]), ("Z0", [0, 1])] "v").value = Val.undef :=
  (zero_denominator_gives_undef
      [("v", [(5 : ℚ), 5]), ("y", [1, 2]), ("Z0", [0, 1])] "v").1
    (by decide) (by norm_num +decide [valMean, maskedVals, getCol, Val.sub])

/-- C4: placebo refutation runs `sims` simulations (source default
`sims_default = 100`); in each it builds a placebo treatment that is a
permutation of the original treatment column `"v"` in `"permute"` mode
(given that the random source's shuffles are permutations) and fresh noise
for any other mode, re-runs the estimator with the placebo column as
treatment, and returns the sum of the per-simulation estimates divided by
`sims` — their mean. -/
theorem placebo_mean_of_simulations (rnd : RandSource) (df : DataFrame)
    (est : CausalEstimate) (placebo_type : String) (sims : ℕ)
    (hshuf : ∀ i l, (rnd.shuffle i l).Perm l) :
    (placebo_type = "permute" →
      ∀ i, (rnd.shuffle i (getCol df "v")).Perm (getCol df "v")) ∧
    sims_default = 100 ∧
    (refute_estimate_placebo rnd df est placebo_type sims).1 =
      Val.div
        (((List.range sims).map (fun i =>
          (instrumental_variables_estimator
            (assign df "placebo"
              (if placebo_type = "permute" then rnd.shuffle i (getCol df "v")
               else rnd.randn i (numRows df)))
            "placebo").value)).foldl Val.add (Val.fin 0))
        (Val.fin (sims : ℚ)) := by
  refine ⟨fun _ i => hshuf i _, rfl, ?_⟩
  simp only [refute_estimate_placebo]
  rw [List.foldl_map]

/-- C4 witness: an identity-shuffle random source on a two-row dataset in
`"permute"` mode with two simulations. -/
theorem placebo_mean_of_simulations_witness :
    (refute_estimate_placebo
        ⟨fun _ n => List.replicate n 0, fun _ l => l, fun _ n _ => List.range n⟩
        [("v", [(1 : ℚ), 3]), ("y", [2, 6]), ("Z0", [0, 1])] ⟨Val.fin 2⟩
        "permute" 2).1 =
      Val.div
        (((List.range 2).map (fun i =>
          (instrumental_variables_estimator
            (assign [("v", [(1 : ℚ), 3]), ("y", [2, 6]), ("Z0", [0, 1])] "placebo"
              (if ("permute" : String) = "permute" then
                (⟨fun _ n => List.replicate n 0, fun _ l => l, fun _ n _ =>
                  List.range n⟩ : RandSource).shuffle i
                  (getCol [("v", [(1 : ℚ), 3]), ("y", [2, 6]), ("Z0", [0, 1])] "v")
               else
                (⟨fun _ n => List.replicate n 0, fun _ l => l, fun _ n _ =>
                  List.range n⟩ : RandSource).randn i
                  (numRows [("v", [(1 : ℚ), 3]), ("y", [2, 6]), ("Z0", [0, 1])])))
            "placebo").value)).foldl Val.add (Val.fin 0))
        (Val.fin ((2 : ℕ) : ℚ)) :=
  (placebo_mean_of_simulations
    ⟨fun _ n => List.replicate n 0, fun _ l => l, fun _ n _ => List.range n⟩
    [("v", [(1 : ℚ), 3]), ("y", [2, 6]), ("Z0", [0, 1])] ⟨Val.fin 2⟩
    "permute" 2 (fun _ l => List.Perm.refl l)).2.2

/-- C5: for any placebo mode other than the literal `"permute"` — in
particular the source's own misspelled default `placebo_type_default =
"permte"` — the placebo refuter silently takes the Gaussian-noise branch
(its result is the mean of estimates on noise columns `randn i n`), with no
failure or warning. -/
theorem placebo_nonpermute_takes_noise_branch (rnd : RandSource) (df : DataFrame)
    (est : CausalEstimate) (placebo_type : String) (sims : ℕ)
    (h : placebo_type ≠ "permute") :
    placebo_type_default ≠ "permute" ∧
    (refute_estimate_placebo rnd df est placebo_type sims).1 =
      Val.div
        (((List.range sims).map (fun i =>
          (instrumental_variables_estimator
            (assign df "placebo" (rnd.randn i (numRows df))) "placebo").value)).foldl
          Val.add (Val.fin 0))
        (Val.fin (sims : ℚ)) := by
  refine ⟨by decide, ?_⟩
  simp only [refute_estimate_placebo, if_neg h]
  rw [List.foldl_map]

/-- C5 witness: instantiated at the source's own default mode string. -/
theorem placebo_nonpermute_takes_noise_branch_witness :
    placebo_type_default ≠ "permute" ∧
    (refute_estimate_placebo
        ⟨fun _ n => List.replicate n 0, fun _ l => l, fun _ n _ => List.range n⟩
        [("v", [(1 : ℚ), 3]), ("y", [2, 6]), ("Z0", [0, 1])] ⟨Val.fin 2⟩
        placebo_type_default 1).1 =
      Val.div
        (((List.range 1).map (fun i =>
          (instrumental_variables_estimator
            (assign [("v", [(1 : ℚ), 3]), ("y", [2, 6]), ("Z0", [0, 1])] "placebo"
              ((⟨fun _ n => List.replicate n 0, fun _ l => l, fun _ n _ =>
                List.range n⟩ : RandSource).randn i
                (numRows [("v", [(1 : ℚ), 3]), ("y", [2, 6]), ("Z0", [0, 1])])))
            "placebo").value)).foldl Val.add (Val.fin 0))
        (Val.fin ((1 : ℕ) : ℚ)) :=
  placebo_nonpermute_takes_noise_branch
    ⟨fun _ n => List.replicate n 0, fun _ l => l, fun _ n _ => List.range n⟩
    [("v", [(1 : ℚ), 3]), ("y", [2, 6]), ("Z0", [0, 1])] ⟨Val.fin 2⟩
    placebo_type_default 1 (by decide)

/-- C6: no refutation strategy mutates the original dataset (or the
baseline estimate, an immutable value): the dataframe object bound to `df`
after each refuter's body — the second component of each embedded refuter —
is the unchanged input, so its rows, columns, row count and column count
are those of the original. -/
theorem refuters_do_not_mutate (rnd : RandSource) (df : DataFrame)
    (est : CausalEstimate) (placebo_type : String) (sims : ℕ) (frac : ℚ) :
    (refute_estimate_random rnd df est).2 = df ∧
    (refute_estimate_placebo rnd df est placebo_type sims).2 = df ∧
    (refute_estimate_subset rnd df est frac).2 = df :=
  ⟨rfl, rfl, rfl⟩

/-- C7: random-common-cause refutation appends (when no `w_random` column
exists) one new noise column, leaving every other column — in particular
treatment, outcome and instrument — untouched, and its estimate equals the
baseline estimate on the original dataset, for every realization of the
appended noise. -/
theorem random_common_cause_preserves_estimate (rnd : RandSource) (df : DataFrame)
    (est : CausalEstimate) (hnew : hasCol df "w_random" = false) :
    assign df "w_random" (rnd.randn 0 (numRows df)) =
      df ++ [("w_random", rnd.randn 0 (numRows df))] ∧
    (∀ c, c ≠ "w_random" →
      getCol (assign df "w_random" (rnd.randn 0 (numRows df))) c = getCol df c) ∧
    (refute_estimate_random rnd df est).1 =
      (instrumental_variables_estimator df "v").value := by
  refine ⟨?_, ?_, ?_⟩
  · unfold assign
    rw [hnew]
    simp
  · intro c hc
    rw [getCol_assign]
    exact if_neg hc
  · simp only [refute_estimate_random]
    refine congrArg CausalEstimate.value (estimator_congr _ df "v" ?_ ?_ ?_) <;>
      (rw [getCol_assign]; exact if_neg (by decide))

/-- C7 witness: a concrete three-column dataset without a `w_random`
column. -/
theorem random_common_cause_preserves_estimate_witness :
    (refute_estimate_random
        ⟨fun _ n => List.replicate n 0, fun _ l => l, fun _ n _ => List.range n⟩
        [("v", [(1 : ℚ), 3]), ("y", [2, 6]), ("Z0", [0, 1])] ⟨Val.fin 2⟩).1 =
      (instrumental_variables_estimator
        [("v", [(1 : ℚ), 3]), ("y", [2, 6]), ("Z0", [0, 1])] "v").value :=
  (random_common_cause_preserves_estimate
    ⟨fun _ n => List.replicate n 0, fun _ l => l, fun _ n _ => List.range n⟩
    [("v", [(1 : ℚ), 3]), ("y", [2, 6]), ("Z0", [0, 1])] ⟨Val.fin 2⟩ (by decide)).2.2

/-- C8: subset refutation re-runs the estimator on the rows drawn (without
replacement) by the random source at the given fraction (source default
`subset_fraction_default = 8/10`); at fraction `1.0` the drawn index list
is a permutation of all rows, and the returned estimate is exactly the
baseline estimate (row reordering does not change it). -/
theorem subset_full_fraction_equals_baseline (rnd : RandSource) (df : DataFrame)
    (est : CausalEstimate) (hwf : WFdf df)
    (hperm : (rnd.rowSample 0 (numRows df) 1).Perm (List.range (numRows df))) :
    subset_fraction_default = 8 / 10 ∧
    (refute_estimate_subset rnd df est 1).1 =
      (instrumental_variables_estimator df "v").value := by
  refine ⟨rfl, ?_⟩
  simp only [refute_estimate_subset]
  exact congrArg CausalEstimate.value (estimator_sampleRows_perm df _ "v" hwf hperm)

/-- C8 witness: a reversal row sample (a permutation of `range 2`) at
fraction 1 on a two-row dataset. -/
theorem subset_full_fraction_equals_baseline_witness :
    WFdf [("v", [(1 : ℚ), 3]), ("y", [2, 6]), ("Z0", [0, 1])] ∧
    (refute_estimate_subset
        ⟨fun _ n => List.replicate n 0, fun _ l => l, fun _ n _ => (List.range n).reverse⟩
        [("v", [(1 : ℚ), 3]), ("y", [2, 6]), ("Z0", [0, 1])] ⟨Val.fin 2⟩ 1).1 =
      (instrumental_variables_estimator
        [("v", [(1 : ℚ), 3]), ("y", [2, 6]), ("Z0", [0, 1])] "v").value :=
  ⟨by decide,
    (subset_full_fraction_equals_baseline
      ⟨fun _ n => List.replicate n 0, fun _ l => l, fun _ n _ => (List.range n).reverse⟩
      [("v", [(1 : ℚ), 3]), ("y", [2, 6]), ("Z0", [0, 1])] ⟨Val.fin 2⟩
      (by decide) (List.reverse_perm _)).2⟩

/-- C9: the estimator reads only the outcome column `"y"`, the column named
by the treatment parameter, and the unconditionally used instrument column
`"Z0"`: two datasets agreeing on those three columns give identical
estimates, whatever other columns hold. -/
theorem estimator_depends_only_on_core_columns (df₁ df₂ : DataFrame) (t : String)
    (hy : getCol df₁ "y" = getCol df₂ "y")
    (hx : getCol df₁ t = getCol df₂ t)
    (hz : getCol df₁ "Z0" = getCol df₂ "Z0") :
    instrumental_variables_estimator df₁ t = instrumental_variables_estimator df₂ t :=
  estimator_congr df₁ df₂ t hy hx hz

/-- C9 witness: two datasets agreeing on `"v"`, `"y"`, `"Z0"` but differing
in a further instrument column `"Z1"` and a covariate `"W0"`. -/
theorem estimator_depends_only_on_core_columns_witness :
    instrumental_variables_estimator
        [("v", [(1 : ℚ), 3]), ("y", [2, 6]), ("Z0", [0, 1]), ("Z1", [7, 8])] "v" =
      instrumental_variables_estimator
        [("W0", [(9 : ℚ), 9]), ("v", [1, 3]), ("y", [2, 6]), ("Z0", [0, 1])] "v" :=
  estimator_depends_only_on_core_columns
    [("v", [(1 : ℚ), 3]), ("y", [2, 6]), ("Z0", [0, 1]), ("Z1", [7, 8])]
    [("W0", [(9 : ℚ), 9]), ("v", [1, 3]), ("y", [2, 6]), ("Z0", [0, 1])] "v"
    (by decide) (by decide) (by decide)

/-- C10: each refuter takes the baseline estimate but never reads it: with
the same random source and dataset, any two baseline values produce
identical results. -/
theorem refuters_ignore_baseline (rnd : RandSource) (df : DataFrame)
    (e₁ e₂ : CausalEstimate) (placebo_type : String) (sims : ℕ) (frac : ℚ) :
    refute_estimate_random rnd df e₁ = refute_estimate_random rnd df e₂ ∧
    refute_estimate_placebo rnd df e₁ placebo_type sims =
      refute_estimate_placebo rnd df e₂ placebo_type sims ∧
    refute_estimate_subset rnd df e₁ frac = refute_estimate_subset rnd df e₂ frac :=
  ⟨rfl, rfl, rfl⟩
